import Mathlib

/-
Verification of the configuration-and-assembly core of the wal-g backup tool
(internal/configure.go) against its natural-language specification.

The Go code is shallowly embedded: the settings source becomes a function
from setting names to optional string values, adapters become a structure of
function-valued fields, fallible Go functions become Except-valued Lean
functions, and the process-wide limiter globals become the returned pair.
-/

/-- A settings source: key/value lookup over environment-like configuration.
Modelled from the spec: exposes Lookup(name) -> (value, found). -/
def Env : Type := String → Option String

/-- Modelled from the spec: the settings-source operation
GetOrEmpty(name) -> value (Go helper GetSettingValue, defined outside the
excerpt): the value when the setting is found, the empty string otherwise. -/
def getSettingValue (env : Env) (name : String) : String :=
  (env name).getD ""

/-- Modelled from the spec: the settings-source operation
Lookup(name) -> (value, found) (Go helper LookupValue, defined outside the
excerpt). -/
def lookupValue (env : Env) (name : String) : Option String :=
  env name

/-- Modelled from the spec: the database page size constant (the standard
8 KB page), defined outside the excerpt; configure.go multiplies it by 8. -/
def DatabasePageSize : Int := 8192

/-- Embeds the Go constant DefaultDataBurstRateLimit = 8 * int64(DatabasePageSize). -/
def DefaultDataBurstRateLimit : Int := 8 * DatabasePageSize

/-- Embeds the Go constant DefaultDataFolderPath = "/tmp". -/
def DefaultDataFolderPath : String := "/tmp"

/-- Errors produced by the configuration core, mirroring configure.go:
the unconfigured-storage error carrying the skipped activation-setting names,
errors bubbled up from an adapter, the unknown-compression-method error,
parse errors wrapped with the offending setting name, and the context
wrapping done by ConfigureUploader (errors.Wrap). E is the error type of
the storage adapters themselves. -/
inductive ConfigError (E : Type) : Type
  | unconfiguredStorage (skipped : List String)
  | adapterError (e : E)
  | unknownCompressionMethod
  | parseError (settingName : String)
  | wrapped (context : String) (e : ConfigError E)
deriving DecidableEq

/-- The result of crypter construction, recording which key-material source
was used and with what arguments, mirroring the three openpgp constructors
called by ConfigureCrypter. -/
inductive Crypter : Type
  | fromArmoredKey (key passphrase : String)
  | fromArmoredKeyPath (path passphrase : String)
  | fromKeyRingID (ringID passphrase : String)
deriving DecidableEq

/-- Embeds ConfigureCrypter (configure.go lines 194-221): gate on the
passphrase setting being found, then inline key, then key file path (each
gated on Lookup success), then the key-ring id (gated on a non-empty
GetSettingValue), else nil. -/
def ConfigureCrypter (env : Env) : Option Crypter :=
  match lookupValue env "WALG_PGP_KEY_PASSPHRASE" with
  | none => none
  | some passphrase =>
    match lookupValue env "WALG_PGP_KEY" with
    | some armoredKey => some (Crypter.fromArmoredKey armoredKey passphrase)
    | none =>
      match lookupValue env "WALG_PGP_KEY_PATH" with
      | some armoredKeyPath => some (Crypter.fromArmoredKeyPath armoredKeyPath passphrase)
      | none =>
        let keyRingID := getSettingValue env "WALE_GPG_KEY_ID"
        if keyRingID ≠ "" then some (Crypter.fromKeyRingID keyRingID passphrase)
        else none

/-- Environment with every key-material setting set but no passphrase. -/
def envNoPassphrase : Env := fun name =>
  if name = "WALG_PGP_KEY" then some "inline-key" else
  if name = "WALG_PGP_KEY_PATH" then some "/keys/k.asc" else
  if name = "WALE_GPG_KEY_ID" then some "ring-1" else none

/-- Environment with a passphrase and an empty-string key-ring id only. -/
def envEmptyRingID : Env := fun name =>
  if name = "WALG_PGP_KEY_PASSPHRASE" then some "pass" else
  if name = "WALE_GPG_KEY_ID" then some "" else none

/-- Environment with a passphrase, an empty inline key and a key file path. -/
def envEmptyInlineKey : Env := fun name =>
  if name = "WALG_PGP_KEY_PASSPHRASE" then some "pass" else
  if name = "WALG_PGP_KEY" then some "" else
  if name = "WALG_PGP_KEY_PATH" then some "/keys/k.asc" else none

/-- Environment with a passphrase and all three key-material settings. -/
def envAllKeys : Env := fun name =>
  if name = "WALG_PGP_KEY_PASSPHRASE" then some "pass" else
  if name = "WALG_PGP_KEY" then some "inline-key" else
  if name = "WALG_PGP_KEY_PATH" then some "/keys/k.asc" else
  if name = "WALE_GPG_KEY_ID" then some "ring-1" else none

/-- A storage adapter descriptor, mirroring the Go adapter struct used by
ConfigureFolder: the activation-setting name (Go field prefixName), an
optional preprocessor of the raw activation value (Go field
prefixPreprocessor), a settings loader and a folder constructor. S is the
adapter settings type, F the folder type and E the adapter error type. -/
structure StorageAdapter (S F E : Type) : Type where
  prefName : String
  prefPreprocessor : Option (String → String)
  loadSettings : Except E S
  folderConstructor : String → S → Except E F

/-- Resolution of a single activated adapter: preprocess the activation
value, load the adapter settings (an error is returned as-is), then
construct the folder (embeds configure.go lines 78-86). -/
def resolveAdapter {S F E : Type} (adapter : StorageAdapter S F E) (pfx : String) :
    Except (ConfigError E) F :=
  let pfx2 := match adapter.prefPreprocessor with
    | some f => f pfx
    | none => pfx
  match adapter.loadSettings with
  | Except.error e => Except.error (ConfigError.adapterError e)
  | Except.ok settings =>
    match adapter.folderConstructor pfx2 settings with
    | Except.error e => Except.error (ConfigError.adapterError e)
    | Except.ok folder => Except.ok folder

/-- The adapter loop of ConfigureFolder, with the accumulated list of
skipped activation-setting names (Go variable skippedPrefixes, appended to
in registry order). -/
def configureFolderLoop {S F E : Type} (env : Env) :
    List (StorageAdapter S F E) → List String → Except (ConfigError E) F
  | [], skipped => Except.error (ConfigError.unconfiguredStorage skipped)
  | adapter :: rest, skipped =>
    let pfx := getSettingValue env adapter.prefName
    if pfx = "" then configureFolderLoop env rest (skipped ++ [adapter.prefName])
    else resolveAdapter adapter pfx

/-- Embeds ConfigureFolder (configure.go lines 70-89): walk the adapter
registry in order, skipping adapters whose activation setting is empty, and
resolve the first activated one; if none is activated, fail with the
unconfigured-storage error listing every skipped activation-setting name. -/
def ConfigureFolder {S F E : Type} (env : Env) (adapters : List (StorageAdapter S F E)) :
    Except (ConfigError E) F :=
  configureFolderLoop env adapters []

/-- A file-system adapter whose settings loading succeeds. -/
def adapterFS : StorageAdapter String String String :=
  { prefName := "WALE_FILE_PREFIX"
    prefPreprocessor := some (fun pfx => pfx ++ "!stripped")
    loadSettings := Except.ok "fs-settings"
    folderConstructor := fun pfx settings => Except.ok ("fs-folder:" ++ pfx ++ ":" ++ settings) }

/-- An S3 adapter whose settings loading fails. -/
def adapterS3 : StorageAdapter String String String :=
  { prefName := "WALE_S3_PREFIX"
    prefPreprocessor := none
    loadSettings := Except.error "s3 settings failure"
    folderConstructor := fun pfx settings => Except.ok ("s3-folder:" ++ pfx ++ ":" ++ settings) }

/-- A GS adapter whose settings loading succeeds. -/
def adapterGS : StorageAdapter String String String :=
  { prefName := "WALE_GS_PREFIX"
    prefPreprocessor := none
    loadSettings := Except.ok "gs-settings"
    folderConstructor := fun pfx settings => Except.ok ("gs-folder:" ++ pfx ++ ":" ++ settings) }

/-- Environment where only the S3 and GS activation settings are present. -/
def envS3andGS : Env := fun name =>
  if name = "WALE_S3_PREFIX" then some "s3://bucket" else
  if name = "WALE_GS_PREFIX" then some "gs://bucket" else none

/-- Environment with no storage activation setting at all. -/
def envNoStorage : Env := fun _ => none

/-- The numeric value of a decimal digit character, as Go strconv sees it. -/
def digitVal (c : Char) : Nat := c.toNat - 48

/-- Accumulator loop for a run of decimal digits; fails on a non-digit. -/
def parseDigitsAux : List Char → Nat → Option Nat
  | [], acc => some acc
  | c :: cs, acc =>
    if c.isDigit then parseDigitsAux cs (acc * 10 + digitVal c) else none

/-- A non-empty all-digit run parsed as a non-negative integer. -/
def parseMagnitude : List Char → Option Int
  | [] => none
  | c :: cs =>
    match parseDigitsAux (c :: cs) 0 with
    | none => none
    | some n => some (n : Int)

/-- An optional leading sign followed by a digit run. -/
def parseSigned : List Char → Option Int
  | '+' :: rest => parseMagnitude rest
  | '-' :: rest => (parseMagnitude rest).map (fun v => -v)
  | cs => parseMagnitude cs

/-- Modelled from the Go standard library: strconv.ParseInt(s, 10, 64) —
an optional sign followed by at least one decimal digit, with the result
required to fit in a signed 64-bit integer (Go returns a range error, hence
a non-nil error, otherwise). -/
def parseInt64 (s : String) : Option Int :=
  match parseSigned s.data with
  | none => none
  | some v => if -(2 ^ 63) ≤ v ∧ v ≤ 2 ^ 63 - 1 then some v else none

/-- Wrapping of a mathematical integer into signed 64-bit two's-complement,
the semantics of Go's int64 addition. -/
def wrap64 (n : Int) : Int := (n + 2 ^ 63) % 2 ^ 64 - 2 ^ 63

/-- A constructed token-bucket limiter: the int64 rate handed to rate.Limit
and the int burst handed to rate.NewLimiter. -/
structure RateLimiter : Type where
  rate : Int
  burst : Int
deriving DecidableEq

/-- The two process-wide limiter globals of the Go code. -/
structure LimiterState : Type where
  diskLimiter : Option RateLimiter
  networkLimiter : Option RateLimiter
deriving DecidableEq

/-- One if-block of ConfigureLimiters (configure.go lines 51-57 and 59-65):
when the setting is non-empty, parse it as int64 (a parse failure is a
wrapped error naming the setting) and build a limiter with the parsed rate
and burst = rate + DefaultDataBurstRateLimit in int64 arithmetic. -/
def limiterStep (env : Env) (settingName : String) :
    Except (ConfigError Unit) (Option RateLimiter) :=
  let limitStr := getSettingValue env settingName
  if limitStr = "" then Except.ok none
  else
    match parseInt64 limitStr with
    | none => Except.error (ConfigError.parseError settingName)
    | some r =>
      Except.ok (some { rate := r, burst := wrap64 (r + DefaultDataBurstRateLimit) })

/-- Embeds ConfigureLimiters (configure.go lines 50-67): the disk block runs
first and returns its parse error before any global is set; the network
block runs second, so its parse error leaves the disk limiter already set.
The result pairs the final global state with the returned error. -/
def ConfigureLimiters (env : Env) : LimiterState × Option (ConfigError Unit) :=
  match limiterStep env "WALG_DISK_RATE_LIMIT" with
  | Except.error e => ({ diskLimiter := none, networkLimiter := none }, some e)
  | Except.ok disk =>
    match limiterStep env "WALG_NETWORK_RATE_LIMIT" with
    | Except.error e => ({ diskLimiter := disk, networkLimiter := none }, some e)
    | Except.ok net => ({ diskLimiter := disk, networkLimiter := net }, none)

/-- Environment setting only a 1024 disk rate limit. -/
def envDiskLimit : Env := fun name =>
  if name = "WALG_DISK_RATE_LIMIT" then some "1024" else none

/-- Environment setting the disk rate limit to the int64 maximum. -/
def envHugeDiskLimit : Env := fun name =>
  if name = "WALG_DISK_RATE_LIMIT" then some "9223372036854775807" else none

/-- Modelled from the Go standard library: strconv.ParseBool accepts exactly
these spellings. -/
def parseBool (s : String) : Option Bool :=
  if s = "1" ∨ s = "t" ∨ s = "T" ∨ s = "TRUE" ∨ s = "true" ∨ s = "True" then some true
  else if s = "0" ∨ s = "f" ∨ s = "F" ∨ s = "FALSE" ∨ s = "false" ∨ s = "False" then
    some false
  else none

/-- Embeds getDataFolderPath (configure.go lines 92-108), parametrized by
the external collaborators: the path-join operation (filepath.Join) and the
existence probe (os.Stat succeeding). -/
def getDataFolderPath (join : String → String → String) (stat : String → Bool)
    (env : Env) : String :=
  let dataFolderPath :=
    match lookupValue env "PGDATA" with
    | none => DefaultDataFolderPath
    | some pgdata =>
      let p1 := join pgdata "pg_wal"
      if stat p1 then p1
      else
        let p2 := join pgdata "pg_xlog"
        if stat p2 then p2 else DefaultDataFolderPath
  join dataFolderPath "walg_data"

/-- Embeds configureWalDeltaUsage (configure.go lines 126-145), parametrized
by the folder opener NewDiskDataFolder (a folder of type D on success, none
on the error that the code only logs): a malformed use-delta value is a
wrapped parse error; a folder-opening failure is swallowed, disabling delta
usage. -/
def configureWalDeltaUsage {E D : Type} (join : String → String → String)
    (stat : String → Bool) (mkFolder : String → Option D) (env : Env) :
    Except (ConfigError E) (Bool × Option D) :=
  match lookupValue env "WALG_USE_WAL_DELTA" with
  | some useWalDeltaStr =>
    match parseBool useWalDeltaStr with
    | none => Except.error (ConfigError.parseError "WALG_USE_WAL_DELTA")
    | some useWalDelta =>
      if useWalDelta then
        match mkFolder (getDataFolderPath join stat env) with
        | some deltaDataFolder => Except.ok (true, some deltaDataFolder)
        | none => Except.ok (false, none)
      else Except.ok (false, none)
  | none => Except.ok (false, none)

/-- Embeds configureCompressor (configure.go lines 148-157): default the
method name to lz4.AlgorithmName, then require it to be registered (the
registry compression.Compressors is the external parameter, as its list of
registered names). -/
def configureCompressor {E : Type} (compressors : List String) (env : Env) :
    Except (ConfigError E) String :=
  let method0 := getSettingValue env "WALG_COMPRESSION_METHOD"
  let method := if method0 = "" then "lz4" else method0
  if method ∈ compressors then Except.ok method
  else Except.error ConfigError.unknownCompressionMethod

/-- The uploader aggregate built by NewUploader(compressor, folder,
deltaDataFolder, useWalDelta). -/
structure Uploader (F D : Type) : Type where
  compressor : String
  folder : F
  deltaDataFolder : Option D
  useWalDelta : Bool
deriving DecidableEq

/-- Embeds ConfigureUploader (configure.go lines 171-190): folder resolution,
compressor selection and delta-usage resolution in sequence, each fatal
error wrapped with its context string, then the aggregate construction. -/
def ConfigureUploader {S F E D : Type} (adapters : List (StorageAdapter S F E))
    (compressors : List String) (join : String → String → String)
    (stat : String → Bool) (mkFolder : String → Option D) (env : Env) :
    Except (ConfigError E) (Uploader F D) :=
  match ConfigureFolder env adapters with
  | Except.error e => Except.error (ConfigError.wrapped "failed to configure folder" e)
  | Except.ok folder =>
    match configureCompressor compressors env with
    | Except.error e => Except.error (ConfigError.wrapped "failed to configure compression" e)
    | Except.ok compressor =>
      match configureWalDeltaUsage join stat mkFolder env with
      | Except.error e =>
        Except.error (ConfigError.wrapped "failed to configure WAL Delta usage" e)
      | Except.ok (useWalDelta, deltaDataFolder) =>
        Except.ok { compressor := compressor, folder := folder,
                    deltaDataFolder := deltaDataFolder, useWalDelta := useWalDelta }

/-- A plain slash path join, standing in for filepath.Join. -/
def joinSlash (a b : String) : String := a ++ "/" ++ b

/-- An existence probe on which no path exists. -/
def statNever : String → Bool := fun _ => false

/-- A folder opener that always succeeds. -/
def mkFolderOk : String → Option String := fun path => some ("folder:" ++ path)

/-- A folder opener that always fails (for example permission denied). -/
def mkFolderFail : String → Option String := fun _ => none

/-- Environment activating the file adapter, with a malformed use-delta flag. -/
def envBadDelta : Env := fun name =>
  if name = "WALE_FILE_PREFIX" then some "/backups" else
  if name = "WALG_USE_WAL_DELTA" then some "notabool" else none

/-- Environment activating the file adapter, with use-delta enabled. -/
def envDeltaTrue : Env := fun name =>
  if name = "WALE_FILE_PREFIX" then some "/backups" else
  if name = "WALG_USE_WAL_DELTA" then some "true" else none

/-- Environment where only PGDATA is set. -/
def envPgdata : Env := fun name =>
  if name = "PGDATA" then some "/var/lib/pg" else none

/-- An existence probe on which exactly /var/lib/pg/pg_xlog exists. -/
def statXlogOnly : String → Bool := fun path => path = "/var/lib/pg/pg_xlog"

/-- A byte in the streaming encryption model. -/
abbrev Byte : Type := Fin 256

/-- Modelled from the spec: the OpenPGP-backed Crypter implementation
(internal/crypto/openpgp) is not part of the excerpt. The model keeps the
streaming contract of the spec: Encrypt(sink) returns an encrypting
write-sink that streams ciphertext and must be closed to finalize the
envelope; Decrypt(source), fully drained, inverts a finalized envelope. The
key material is abstracted to one key byte driving a reversible byte
transformation. -/
structure PgpCrypter : Type where
  key : Byte

/-- An encrypting write-sink: the session key and the ciphertext streamed
into the underlying sink so far. -/
structure EncryptingSink : Type where
  key : Byte
  sink : List Byte

/-- Modelled from the spec: Encrypt(sink) starts a streaming session over
the (empty) underlying sink. -/
def PgpCrypter.encrypt (c : PgpCrypter) : EncryptingSink :=
  { key := c.key, sink := [] }

/-- Writing plaintext streams its ciphertext into the underlying sink. -/
def EncryptingSink.write (e : EncryptingSink) (data : List Byte) : EncryptingSink :=
  { key := e.key, sink := e.sink ++ data.map (fun b => b + e.key) }

/-- Closing flushes the finalizing envelope trailer; without closing, the
ciphertext is truncated and decryption rejects it. -/
def EncryptingSink.close (e : EncryptingSink) : List Byte :=
  e.sink ++ [e.key]

/-- Modelled from the spec: Decrypt(source) fully drained — validate the
envelope trailer, then invert the byte transformation on the body. -/
def PgpCrypter.decrypt (c : PgpCrypter) (source : List Byte) : Option (List Byte) :=
  match source.getLast? with
  | some t =>
    if t = c.key then some (source.dropLast.map (fun b => b - c.key)) else none
  | none => none

/-- The UTF-8 bytes of a string, as model bytes. -/
def strBytes (s : String) : List Byte :=
  s.toUTF8.toList.map (fun b => (⟨b.toNat % 256, Nat.mod_lt _ (by norm_num)⟩ : Fin 256))

/- Theorems: each claim of the specification, settled against the embedding above. -/

/-- C3: if the passphrase setting is absent, ConfigureCrypter returns nil,
whatever the other settings hold. -/
theorem configureCrypter_no_passphrase (env : Env)
    (h : lookupValue env "WALG_PGP_KEY_PASSPHRASE" = none) :
    ConfigureCrypter env = none := by
  unfold ConfigureCrypter
  rw [h]

/-- Witness for C3: a concrete environment carrying all three key-material
settings but no passphrase yields no crypter. -/
theorem configureCrypter_no_passphrase_witness :
    ConfigureCrypter envNoPassphrase = none :=
  configureCrypter_no_passphrase envNoPassphrase (by decide)

/-- C4 counterexample: with the passphrase present and the key-ring id
setting present (but holding the empty string), the claimed precedence says
a crypter is built from the ring id; the code instead returns nil, because
the ring id alone is gated on non-emptiness. -/
theorem configureCrypter_present_ring_id_refuted :
    lookupValue envEmptyRingID "WALG_PGP_KEY_PASSPHRASE" = some "pass" ∧
    lookupValue envEmptyRingID "WALG_PGP_KEY" = none ∧
    lookupValue envEmptyRingID "WALG_PGP_KEY_PATH" = none ∧
    (lookupValue envEmptyRingID "WALE_GPG_KEY_ID").isSome = true ∧
    ConfigureCrypter envEmptyRingID = none := by
  refine ⟨by decide, by decide, by decide, by decide, ?_⟩
  decide

/-- C4 amended: when the passphrase setting is present, the sources are tried
in fixed precedence — inline key if its setting is found (ignoring the file
path and the ring id), else key file path if found (ignoring the ring id),
else the key-ring id provided its value is non-empty, else nil. -/
theorem configureCrypter_precedence (env : Env) (passphrase : String)
    (h : lookupValue env "WALG_PGP_KEY_PASSPHRASE" = some passphrase) :
    (∀ key, lookupValue env "WALG_PGP_KEY" = some key →
      ConfigureCrypter env = some (Crypter.fromArmoredKey key passphrase)) ∧
    (∀ path, lookupValue env "WALG_PGP_KEY" = none →
      lookupValue env "WALG_PGP_KEY_PATH" = some path →
      ConfigureCrypter env = some (Crypter.fromArmoredKeyPath path passphrase)) ∧
    (lookupValue env "WALG_PGP_KEY" = none →
      lookupValue env "WALG_PGP_KEY_PATH" = none →
      getSettingValue env "WALE_GPG_KEY_ID" ≠ "" →
      ConfigureCrypter env =
        some (Crypter.fromKeyRingID (getSettingValue env "WALE_GPG_KEY_ID") passphrase)) ∧
    (lookupValue env "WALG_PGP_KEY" = none →
      lookupValue env "WALG_PGP_KEY_PATH" = none →
      getSettingValue env "WALE_GPG_KEY_ID" = "" →
      ConfigureCrypter env = none) := by
  refine ⟨?_, ?_, ?_, ?_⟩
  · intro key hk
    unfold ConfigureCrypter
    rw [h, hk]
  · intro path hk hp
    unfold ConfigureCrypter
    rw [h, hk, hp]
  · intro hk hp hr
    unfold ConfigureCrypter
    rw [h, hk, hp]
    simp [hr]
  · intro hk hp hr
    unfold ConfigureCrypter
    rw [h, hk, hp]
    simp [hr]

/-- Witness for the amended C4: with all three key-material settings present,
the inline key wins. -/
theorem configureCrypter_precedence_witness :
    ConfigureCrypter envAllKeys = some (Crypter.fromArmoredKey "inline-key" "pass") :=
  (configureCrypter_precedence envAllKeys "pass" (by decide)).1 "inline-key" (by decide)

/-- C10: the passphrase, inline key and key-file-path settings count as
configured whenever the setting exists, even with an empty value — an empty
passphrase still enables encryption and an empty inline key still shadows a
configured key file — whereas an empty key-ring id is treated as absent and
yields nil. -/
theorem configureCrypter_presence_gating (env : Env) :
    (∀ key, lookupValue env "WALG_PGP_KEY_PASSPHRASE" = some "" →
      lookupValue env "WALG_PGP_KEY" = some key →
      ConfigureCrypter env = some (Crypter.fromArmoredKey key "")) ∧
    (∀ passphrase, lookupValue env "WALG_PGP_KEY_PASSPHRASE" = some passphrase →
      lookupValue env "WALG_PGP_KEY" = some "" →
      ConfigureCrypter env = some (Crypter.fromArmoredKey "" passphrase)) ∧
    (∀ passphrase, lookupValue env "WALG_PGP_KEY_PASSPHRASE" = some passphrase →
      lookupValue env "WALG_PGP_KEY" = none →
      lookupValue env "WALG_PGP_KEY_PATH" = some "" →
      ConfigureCrypter env = some (Crypter.fromArmoredKeyPath "" passphrase)) ∧
    (∀ passphrase, lookupValue env "WALG_PGP_KEY_PASSPHRASE" = some passphrase →
      lookupValue env "WALG_PGP_KEY" = none →
      lookupValue env "WALG_PGP_KEY_PATH" = none →
      lookupValue env "WALE_GPG_KEY_ID" = some "" →
      ConfigureCrypter env = none) := by
  refine ⟨?_, ?_, ?_, ?_⟩
  · intro key hp hk
    unfold ConfigureCrypter
    rw [hp, hk]
  · intro passphrase hp hk
    unfold ConfigureCrypter
    rw [hp, hk]
  · intro passphrase hp hk hpath
    unfold ConfigureCrypter
    rw [hp, hk, hpath]
  · intro passphrase hp hk hpath hr
    unfold ConfigureCrypter
    rw [hp, hk, hpath]
    simp only [lookupValue] at hr
    simp [getSettingValue, hr]

/-- Witness for C10: an empty inline key shadows a configured key file path. -/
theorem configureCrypter_presence_gating_witness :
    ConfigureCrypter envEmptyInlineKey = some (Crypter.fromArmoredKey "" "pass") :=
  (configureCrypter_presence_gating envEmptyInlineKey).2.1 "pass" (by decide) (by decide)

/-- The loop ignores adapters whose activation setting is empty, extending
the skipped list in order. -/
theorem configureFolderLoop_skip_all {S F E : Type} (env : Env)
    (pre : List (StorageAdapter S F E)) (rest : List (StorageAdapter S F E))
    (skipped : List String)
    (hpre : ∀ b ∈ pre, getSettingValue env b.prefName = "") :
    configureFolderLoop env (pre ++ rest) skipped =
      configureFolderLoop env rest (skipped ++ pre.map (fun b => b.prefName)) := by
  induction pre generalizing skipped with
  | nil => simp
  | cons a tail ih =>
    have ha : getSettingValue env a.prefName = "" := hpre a (by simp)
    have htail : ∀ b ∈ tail, getSettingValue env b.prefName = "" := by
      intro b hb
      exact hpre b (by simp [hb])
    simp only [List.cons_append, configureFolderLoop, ha, if_true, eq_self_iff_true,
      List.append_eq]
    rw [ih (skipped ++ [a.prefName]) htail]
    simp

/-- C1: for every adapter registry and settings source, resolution selects
the first adapter whose activation setting is non-empty and stops there —
the outcome is resolveAdapter on that adapter alone, independent of every
later adapter; in particular a settings-loading failure of the selected
adapter is returned immediately. -/
theorem configureFolder_first_match {S F E : Type} (env : Env)
    (pre : List (StorageAdapter S F E)) (adapter : StorageAdapter S F E)
    (post : List (StorageAdapter S F E))
    (hpre : ∀ b ∈ pre, getSettingValue env b.prefName = "")
    (hact : getSettingValue env adapter.prefName ≠ "") :
    ConfigureFolder env (pre ++ adapter :: post) =
      resolveAdapter adapter (getSettingValue env adapter.prefName) ∧
    (∀ e, adapter.loadSettings = Except.error e →
      ConfigureFolder env (pre ++ adapter :: post) =
        Except.error (ConfigError.adapterError e)) := by
  have hmain : ConfigureFolder env (pre ++ adapter :: post) =
      resolveAdapter adapter (getSettingValue env adapter.prefName) := by
    unfold ConfigureFolder
    rw [configureFolderLoop_skip_all env pre (adapter :: post) [] hpre]
    simp only [configureFolderLoop, if_neg hact]
  refine ⟨hmain, ?_⟩
  intro e he
  rw [hmain]
  unfold resolveAdapter
  rw [he]

/-- C5: if no adapter's activation setting is present, ConfigureFolder fails
with the unconfigured-storage error whose list is exactly the
activation-setting names of all adapters, in registry order. -/
theorem configureFolder_unconfigured {S F E : Type} (env : Env)
    (adapters : List (StorageAdapter S F E))
    (hall : ∀ b ∈ adapters, getSettingValue env b.prefName = "") :
    ConfigureFolder env adapters =
      Except.error (ConfigError.unconfiguredStorage
        (adapters.map (fun b => b.prefName))) := by
  unfold ConfigureFolder
  have h := configureFolderLoop_skip_all (S := S) (F := F) (E := E) env adapters [] [] hall
  rw [List.append_nil] at h
  rw [h]
  simp [configureFolderLoop]

/-- Witness for C1: with adapters [FS, S3, GS] and only the S3 and GS
activation settings present, resolution selects S3 and surfaces its
settings-loading failure immediately, never trying GS. -/
theorem configureFolder_first_match_witness :
    ConfigureFolder envS3andGS ([adapterFS] ++ adapterS3 :: [adapterGS]) =
      Except.error (ConfigError.adapterError "s3 settings failure") :=
  (configureFolder_first_match envS3andGS [adapterFS] adapterS3 [adapterGS]
    (by intro b hb; rw [List.mem_singleton] at hb; subst hb; decide)
    (by decide)).2 "s3 settings failure" rfl

/-- Witness for C5: with no activation setting present, the error lists the
three adapters' activation-setting names in registry order. -/
theorem configureFolder_unconfigured_witness :
    ConfigureFolder envNoStorage [adapterFS, adapterS3, adapterGS] =
      Except.error (ConfigError.unconfiguredStorage
        ["WALE_FILE_PREFIX", "WALE_S3_PREFIX", "WALE_GS_PREFIX"]) := by
  have h := configureFolder_unconfigured envNoStorage [adapterFS, adapterS3, adapterGS]
    (by intro b hb; fin_cases hb <;> decide)
  simpa [adapterFS, adapterS3, adapterGS] using h

/-- A successfully parsed int64 lies in the signed 64-bit range. -/
theorem parseInt64_range (s : String) (r : Int) (h : parseInt64 s = some r) :
    -(2 ^ 63) ≤ r ∧ r ≤ 2 ^ 63 - 1 := by
  unfold parseInt64 at h
  split at h
  · exact absurd h (by simp)
  · rename_i v hv
    split at h
    · rename_i hrange
      injection h with h
      subst h
      exact hrange
    · exact absurd h (by simp)

/-- Wrapping is the identity on values already in the signed 64-bit range. -/
theorem wrap64_eq_self (n : Int) (h1 : -(2 ^ 63) ≤ n) (h2 : n ≤ 2 ^ 63 - 1) :
    wrap64 n = n := by
  have e63 : (2 : Int) ^ 63 = 9223372036854775808 := by norm_num
  have e64 : (2 : Int) ^ 64 = 18446744073709551616 := by norm_num
  unfold wrap64
  rw [e63, e64]
  rw [e63] at h1 h2
  omega

/-- C6 amended: whenever a rate-limit setting parses as an integer R and
R + DefaultDataBurstRateLimit does not exceed the int64 maximum, the
constructed limiter has rate R and burst exactly R plus the constant (so
burst ≥ R); this holds for the disk limiter, and for the network limiter
whenever the disk block did not abort first. -/
theorem configureLimiters_burst (env : Env) (settingName : String) (r : Int)
    (hparse : parseInt64 (getSettingValue env settingName) = some r)
    (hnoov : r + DefaultDataBurstRateLimit ≤ 2 ^ 63 - 1) :
    limiterStep env settingName =
      Except.ok (some { rate := r, burst := r + DefaultDataBurstRateLimit }) ∧
    r ≤ r + DefaultDataBurstRateLimit ∧
    (settingName = "WALG_DISK_RATE_LIMIT" →
      (ConfigureLimiters env).1.diskLimiter =
        some { rate := r, burst := r + DefaultDataBurstRateLimit }) ∧
    (∀ d, settingName = "WALG_NETWORK_RATE_LIMIT" →
      limiterStep env "WALG_DISK_RATE_LIMIT" = Except.ok d →
      (ConfigureLimiters env).1.networkLimiter =
        some { rate := r, burst := r + DefaultDataBurstRateLimit }) := by
  have hne : getSettingValue env settingName ≠ "" := by
    intro h0
    rw [h0] at hparse
    rw [show parseInt64 "" = none from rfl] at hparse
    exact Option.noConfusion hparse
  have hconst : DefaultDataBurstRateLimit = 65536 := by
    norm_num [DefaultDataBurstRateLimit, DatabasePageSize]
  have hr := parseInt64_range _ _ hparse
  have hw : wrap64 (r + DefaultDataBurstRateLimit) = r + DefaultDataBurstRateLimit := by
    apply wrap64_eq_self
    · rw [hconst]
      have := hr.1
      omega
    · exact hnoov
  have hstep : limiterStep env settingName =
      Except.ok (some { rate := r, burst := r + DefaultDataBurstRateLimit }) := by
    unfold limiterStep
    simp only [if_neg hne, hparse, hw]
  refine ⟨hstep, by rw [hconst]; omega, ?_, ?_⟩
  · intro hn
    subst hn
    unfold ConfigureLimiters
    rw [hstep]
    cases hnet : limiterStep env "WALG_NETWORK_RATE_LIMIT" with
    | error e => simp
    | ok net => simp
  · intro d hn hdiskOk
    subst hn
    unfold ConfigureLimiters
    rw [hdiskOk, hstep]

/-- Witness for the amended C6: a disk rate limit of 1024 yields a disk
limiter with rate 1024 and burst 1024 + 65536. -/
theorem configureLimiters_burst_witness :
    (ConfigureLimiters envDiskLimit).1.diskLimiter =
      some { rate := 1024, burst := 1024 + DefaultDataBurstRateLimit } :=
  (configureLimiters_burst envDiskLimit "WALG_DISK_RATE_LIMIT" 1024
    (by decide) (by decide)).2.2.1 rfl

/-- C6 counterexample: the int64 maximum 9223372036854775807 parses as a
valid rate R, but the burst computed as R + DefaultDataBurstRateLimit in
int64 arithmetic wraps to a negative value, so the constructed limiter's
burst is neither R plus the constant nor at least R. -/
theorem configureLimiters_burst_refuted :
    parseInt64 (getSettingValue envHugeDiskLimit "WALG_DISK_RATE_LIMIT") =
      some 9223372036854775807 ∧
    (ConfigureLimiters envHugeDiskLimit).1.diskLimiter =
      some { rate := 9223372036854775807, burst := -9223372036854710273 } ∧
    (-9223372036854710273 : Int) < 9223372036854775807 ∧
    (-9223372036854710273 : Int) ≠ 9223372036854775807 + DefaultDataBurstRateLimit := by
  refine ⟨by decide, by decide, by decide, by decide⟩

/-- C2 counterexample: a use-delta value that fails boolean parsing makes
configureWalDeltaUsage return a parse error, and ConfigureUploader fails
with that error wrapped — so the delta step's internal errors are not all
absorbed. -/
theorem configureUploader_delta_error_refuted :
    (configureWalDeltaUsage joinSlash statNever mkFolderOk envBadDelta :
        Except (ConfigError String) (Bool × Option String)) =
      Except.error (ConfigError.parseError "WALG_USE_WAL_DELTA") ∧
    ConfigureUploader [adapterFS] ["lz4"] joinSlash statNever mkFolderOk envBadDelta =
      Except.error (ConfigError.wrapped "failed to configure WAL Delta usage"
        (ConfigError.parseError "WALG_USE_WAL_DELTA")) := by
  exact ⟨rfl, rfl⟩

/-- C2 amended: the delta step's only fatal error is the use-delta parse
error — whenever the use-delta setting is absent or parses as a boolean,
configureWalDeltaUsage succeeds, whatever the delta-folder state; any error
it returns is the parse error on a malformed explicit value. -/
theorem configureWalDeltaUsage_error_only_parse {E D : Type}
    (join : String → String → String) (stat : String → Bool)
    (mkFolder : String → Option D) (env : Env) :
    (∀ e : ConfigError E, configureWalDeltaUsage join stat mkFolder env = Except.error e →
      e = ConfigError.parseError "WALG_USE_WAL_DELTA" ∧
      ∃ s, lookupValue env "WALG_USE_WAL_DELTA" = some s ∧ parseBool s = none) ∧
    (∀ s b, lookupValue env "WALG_USE_WAL_DELTA" = some s → parseBool s = some b →
      ∃ result, (configureWalDeltaUsage join stat mkFolder env :
        Except (ConfigError E) (Bool × Option D)) = Except.ok result) ∧
    (lookupValue env "WALG_USE_WAL_DELTA" = none →
      (configureWalDeltaUsage join stat mkFolder env :
        Except (ConfigError E) (Bool × Option D)) = Except.ok (false, none)) := by
  refine ⟨?_, ?_, ?_⟩
  · intro e he
    unfold configureWalDeltaUsage at he
    split at he
    · rename_i s hs
      split at he
      · rename_i hpb
        injection he with he
        exact ⟨he.symm, s, hs, hpb⟩
      · rename_i b hpb
        split at he
        · split at he <;> exact absurd he (by simp)
        · exact absurd he (by simp)
    · exact absurd he (by simp)
  · intro s b hs hb
    simp only [configureWalDeltaUsage, hs, hb]
    cases b with
    | true =>
      cases hm : mkFolder (getDataFolderPath join stat env) with
      | some d => exact ⟨(true, some d), by simp [hm]⟩
      | none => exact ⟨(false, none), by simp [hm]⟩
    | false => exact ⟨(false, none), by simp⟩
  · intro hs
    simp only [configureWalDeltaUsage, hs]

/-- Witness for the amended C2: with use-delta explicitly true and a failing
folder opener, the delta step still succeeds. -/
theorem configureWalDeltaUsage_error_only_parse_witness :
    ∃ result, (configureWalDeltaUsage joinSlash statNever mkFolderFail envDeltaTrue :
      Except (ConfigError String) (Bool × Option String)) = Except.ok result :=
  (configureWalDeltaUsage_error_only_parse joinSlash statNever mkFolderFail
    envDeltaTrue).2.1 "true" true (by decide) (by decide)

/-- C7: if the use-delta setting parses as true but opening the computed
delta data folder fails, configureWalDeltaUsage returns (false, nil, nil) —
the folder error is not propagated — and ConfigureUploader still succeeds
(whenever folder and compressor resolution do), returning an uploader with
delta usage disabled and no delta folder. -/
theorem configureUploader_delta_degradation {S F E D : Type}
    (adapters : List (StorageAdapter S F E)) (compressors : List String)
    (join : String → String → String) (stat : String → Bool)
    (mkFolder : String → Option D) (env : Env) (s : String)
    (hs : lookupValue env "WALG_USE_WAL_DELTA" = some s)
    (hb : parseBool s = some true)
    (hfail : mkFolder (getDataFolderPath join stat env) = none) :
    (configureWalDeltaUsage join stat mkFolder env :
      Except (ConfigError E) (Bool × Option D)) = Except.ok (false, none) ∧
    (∀ folder compressor, ConfigureFolder env adapters = Except.ok folder →
      (configureCompressor compressors env : Except (ConfigError E) String) =
        Except.ok compressor →
      ConfigureUploader adapters compressors join stat mkFolder env =
        Except.ok { compressor := compressor, folder := folder,
                    deltaDataFolder := none, useWalDelta := false }) := by
  have hdelta : (configureWalDeltaUsage join stat mkFolder env :
      Except (ConfigError E) (Bool × Option D)) = Except.ok (false, none) := by
    simp only [configureWalDeltaUsage, hs, hb, hfail]
    simp
  refine ⟨hdelta, ?_⟩
  intro folder compressor hfolder hcomp
  unfold ConfigureUploader
  rw [hfolder, hcomp, hdelta]

/-- Witness for C7: with the file adapter activated, use-delta set to true
and a failing folder opener, the uploader is still built, with delta usage
disabled. -/
theorem configureUploader_delta_degradation_witness :
    ConfigureUploader [adapterFS] ["lz4"] joinSlash statNever mkFolderFail envDeltaTrue =
      Except.ok { compressor := "lz4",
                  folder := "fs-folder:/backups!stripped:fs-settings",
                  deltaDataFolder := none, useWalDelta := false } :=
  (configureUploader_delta_degradation [adapterFS] ["lz4"] joinSlash statNever
    mkFolderFail envDeltaTrue "true" (by decide) (by decide) rfl).2
    "fs-folder:/backups!stripped:fs-settings" "lz4" rfl rfl

/-- C8: getDataFolderPath resolves the base directory by the exact fallback
chain — the fixed default when the PGDATA signal is absent; otherwise the
first of PGDATA/pg_wal then PGDATA/pg_xlog that exists, the default when
neither does — and always appends the walg_data subdirectory name. -/
theorem getDataFolderPath_fallback (join : String → String → String)
    (stat : String → Bool) (env : Env) :
    (lookupValue env "PGDATA" = none →
      getDataFolderPath join stat env = join DefaultDataFolderPath "walg_data") ∧
    (∀ pgdata, lookupValue env "PGDATA" = some pgdata →
      stat (join pgdata "pg_wal") = true →
      getDataFolderPath join stat env = join (join pgdata "pg_wal") "walg_data") ∧
    (∀ pgdata, lookupValue env "PGDATA" = some pgdata →
      stat (join pgdata "pg_wal") = false →
      stat (join pgdata "pg_xlog") = true →
      getDataFolderPath join stat env = join (join pgdata "pg_xlog") "walg_data") ∧
    (∀ pgdata, lookupValue env "PGDATA" = some pgdata →
      stat (join pgdata "pg_wal") = false →
      stat (join pgdata "pg_xlog") = false →
      getDataFolderPath join stat env = join DefaultDataFolderPath "walg_data") := by
  refine ⟨?_, ?_, ?_, ?_⟩
  · intro h
    simp only [getDataFolderPath, h]
  · intro pgdata h h1
    simp only [getDataFolderPath, h, h1]
    simp
  · intro pgdata h h1 h2
    simp only [getDataFolderPath, h, h1, h2]
    simp
  · intro pgdata h h1 h2
    simp only [getDataFolderPath, h, h1, h2]
    simp

/-- Witness for C8: with PGDATA set, pg_wal missing and pg_xlog existing,
the delta folder path is PGDATA/pg_xlog/walg_data. -/
theorem getDataFolderPath_fallback_witness :
    getDataFolderPath joinSlash statXlogOnly envPgdata = "/var/lib/pg/pg_xlog/walg_data" := by
  have h := (getDataFolderPath_fallback joinSlash statXlogOnly envPgdata).2.2.1
    "/var/lib/pg" (by decide) (by decide) (by decide)
  rw [h]
  decide

/-- C9: for every byte sequence S and every crypter, writing S through the
sink returned by encrypt, closing it, and fully draining decrypt over the
ciphertext reproduces S exactly; in particular the UTF-8 bytes of
"so very secret thingy" decrypt to the identical sequence. -/
theorem crypter_roundtrip :
    (∀ (c : PgpCrypter) (S : List Byte),
      c.decrypt ((c.encrypt.write S).close) = some S) ∧
    (∀ c : PgpCrypter,
      c.decrypt ((c.encrypt.write (strBytes "so very secret thingy")).close) =
        some (strBytes "so very secret thingy")) := by
  have hmain : ∀ (c : PgpCrypter) (S : List Byte),
      c.decrypt ((c.encrypt.write S).close) = some S := by
    intro c S
    unfold PgpCrypter.decrypt PgpCrypter.encrypt EncryptingSink.write EncryptingSink.close
    simp only [List.nil_append]
    rw [List.getLast?_concat]
    simp only [if_pos rfl]
    rw [List.dropLast_concat, List.map_map]
    have hid : ((fun b : Byte => b - c.key) ∘ fun b : Byte => b + c.key) = id := by
      funext b
      simp
    rw [hid, List.map_id]
    simp
  exact ⟨hmain, fun c => hmain c (strBytes "so very secret thingy")⟩
